import Mathlib

/-!
Verification development for the Xen netif shared-ring network interface
(`uvp-xenpv/.../include/xen/interface/io/netif.h`).

The header declares the wire formats, flag bits, extra-info descriptors and
response status codes of the split network-device protocol.  The executable
components built on top of these declarations (packet framer, descriptor
codec, notification controller, capability negotiation) are not part of the
header; where a property concerns them they are modelled from the written
protocol description, faithful to the wire-format comments of the header.

Machine integers are modelled as `Nat` (unsigned fields) and `Int` (the
signed 16-bit `status` field); all field values relevant here are small, so
no wraparound arises and none is modelled.
-/

namespace Netif

/-! ## Constants transcribed from netif.h -/

/-- `#define XEN_NETIF_NR_SLOTS_MIN 18` — the minimum number of ring slots
per packet a backend must support even without negotiation. -/
def XEN_NETIF_NR_SLOTS_MIN : Nat := 18

/-- `#define XEN_NETIF_MAX_TX_SIZE 0xFFFF`. -/
def XEN_NETIF_MAX_TX_SIZE : Nat := 0xFFFF

/-- `#define _XEN_NETTXF_csum_blank (0)` -/
def _XEN_NETTXF_csum_blank : Nat := 0

/-- `#define XEN_NETTXF_csum_blank (1U<<_XEN_NETTXF_csum_blank)` -/
def XEN_NETTXF_csum_blank : Nat := 1 <<< _XEN_NETTXF_csum_blank

/-- `#define _XEN_NETTXF_data_validated (1)` -/
def _XEN_NETTXF_data_validated : Nat := 1

/-- `#define XEN_NETTXF_data_validated (1U<<_XEN_NETTXF_data_validated)` -/
def XEN_NETTXF_data_validated : Nat := 1 <<< _XEN_NETTXF_data_validated

/-- `#define _XEN_NETTXF_more_data (2)` -/
def _XEN_NETTXF_more_data : Nat := 2

/-- `#define XEN_NETTXF_more_data (1U<<_XEN_NETTXF_more_data)` -/
def XEN_NETTXF_more_data : Nat := 1 <<< _XEN_NETTXF_more_data

/-- `#define _XEN_NETTXF_extra_info (3)` -/
def _XEN_NETTXF_extra_info : Nat := 3

/-- `#define XEN_NETTXF_extra_info (1U<<_XEN_NETTXF_extra_info)` -/
def XEN_NETTXF_extra_info : Nat := 1 <<< _XEN_NETTXF_extra_info

/-- `#define _XEN_NETRXF_data_validated (0)` -/
def _XEN_NETRXF_data_validated : Nat := 0

/-- `#define XEN_NETRXF_data_validated (1U<<_XEN_NETRXF_data_validated)` -/
def XEN_NETRXF_data_validated : Nat := 1 <<< _XEN_NETRXF_data_validated

/-- `#define _XEN_NETRXF_csum_blank (1)` -/
def _XEN_NETRXF_csum_blank : Nat := 1

/-- `#define XEN_NETRXF_csum_blank (1U<<_XEN_NETRXF_csum_blank)` -/
def XEN_NETRXF_csum_blank : Nat := 1 <<< _XEN_NETRXF_csum_blank

/-- `#define _XEN_NETRXF_more_data (2)` -/
def _XEN_NETRXF_more_data : Nat := 2

/-- `#define XEN_NETRXF_more_data (1U<<_XEN_NETRXF_more_data)` -/
def XEN_NETRXF_more_data : Nat := 1 <<< _XEN_NETRXF_more_data

/-- `#define _XEN_NETRXF_extra_info (3)` -/
def _XEN_NETRXF_extra_info : Nat := 3

/-- `#define XEN_NETRXF_extra_info (1U<<_XEN_NETRXF_extra_info)` -/
def XEN_NETRXF_extra_info : Nat := 1 <<< _XEN_NETRXF_extra_info

/-- `#define _XEN_NETRXF_gso_prefix (4)` -/
def _XEN_NETRXF_gso_prefix : Nat := 4

/-- `#define XEN_NETRXF_gso_prefix (1U<<_XEN_NETRXF_gso_prefix)` -/
def XEN_NETRXF_gso_prefix : Nat := 1 <<< _XEN_NETRXF_gso_prefix

/-- `#define XEN_NETIF_EXTRA_TYPE_NONE (0)` — never used, invalid. -/
def XEN_NETIF_EXTRA_TYPE_NONE : Nat := 0

/-- `#define XEN_NETIF_EXTRA_TYPE_GSO (1)` -/
def XEN_NETIF_EXTRA_TYPE_GSO : Nat := 1

/-- `#define XEN_NETIF_EXTRA_TYPE_MCAST_ADD (2)` -/
def XEN_NETIF_EXTRA_TYPE_MCAST_ADD : Nat := 2

/-- `#define XEN_NETIF_EXTRA_TYPE_MCAST_DEL (3)` -/
def XEN_NETIF_EXTRA_TYPE_MCAST_DEL : Nat := 3

/-- `#define XEN_NETIF_EXTRA_TYPE_MAX (4)` -/
def XEN_NETIF_EXTRA_TYPE_MAX : Nat := 4

/-- `#define _XEN_NETIF_EXTRA_FLAG_MORE (0)` -/
def _XEN_NETIF_EXTRA_FLAG_MORE : Nat := 0

/-- `#define XEN_NETIF_EXTRA_FLAG_MORE (1U<<_XEN_NETIF_EXTRA_FLAG_MORE)` -/
def XEN_NETIF_EXTRA_FLAG_MORE : Nat := 1 <<< _XEN_NETIF_EXTRA_FLAG_MORE

/-- `#define XEN_NETIF_GSO_TYPE_NONE (0)` -/
def XEN_NETIF_GSO_TYPE_NONE : Nat := 0

/-- `#define XEN_NETIF_GSO_TYPE_TCPV4 (1)` -/
def XEN_NETIF_GSO_TYPE_TCPV4 : Nat := 1

/-- `#define XEN_NETIF_GSO_TYPE_TCPV6 (2)` -/
def XEN_NETIF_GSO_TYPE_TCPV6 : Nat := 2

/-- `#define XEN_NETIF_RSP_DROPPED -2` -/
def XEN_NETIF_RSP_DROPPED : Int := -2

/-- `#define XEN_NETIF_RSP_ERROR -1` -/
def XEN_NETIF_RSP_ERROR : Int := -1

/-- `#define XEN_NETIF_RSP_OKAY 0` -/
def XEN_NETIF_RSP_OKAY : Int := 0

/-- `#define XEN_NETIF_RSP_NULL 1` — no response: used for auxiliary requests
(e.g. extra-info fragments). -/
def XEN_NETIF_RSP_NULL : Int := 1

/-! ## Slot structures transcribed from netif.h

`grant_ref_t` is `uint32_t`; the remaining fields are `uint16_t` except the
signed 16-bit `status` of responses. -/

/-- `struct netif_tx_request { grant_ref_t gref; uint16_t offset; uint16_t
flags; uint16_t id; uint16_t size; }`. -/
structure netif_tx_request where
  gref : Nat
  offset : Nat
  flags : Nat
  id : Nat
  size : Nat
deriving DecidableEq

/-- `struct netif_tx_response { uint16_t id; int16_t status; }`. -/
structure netif_tx_response where
  id : Nat
  status : Int
deriving DecidableEq

/-- `struct netif_rx_request { uint16_t id; grant_ref_t gref; }`. -/
structure netif_rx_request where
  id : Nat
  gref : Nat
deriving DecidableEq

/-- `struct netif_rx_response { uint16_t id; uint16_t offset; uint16_t flags;
int16_t status; }`. -/
structure netif_rx_response where
  id : Nat
  offset : Nat
  flags : Nat
  status : Int
deriving DecidableEq

/-! ## Packed byte sizes of the wire structures

The wire layout is fixed-size and packed (no padding); each structure's byte
size is the sum of its declared field widths: `uint8_t` = 1, `uint16_t` and
`int16_t` = 2, `grant_ref_t` (`uint32_t`) = 4. -/

/-- Bytes of `netif_extra_info.u.gso`: `uint16_t size; uint8_t type; uint8_t
pad; uint16_t features;`. -/
def gso_variant_bytes : Nat := 2 + 1 + 1 + 2

/-- Bytes of `netif_extra_info.u.mcast`: `uint8_t addr[6];`. -/
def mcast_variant_bytes : Nat := 6

/-- Bytes of `netif_extra_info.u`'s padding variant: `uint16_t pad[3];`. -/
def pad_variant_bytes : Nat := 3 * 2

/-- Bytes of `struct netif_extra_info`: `uint8_t type; uint8_t flags;` plus
the 6-byte union. -/
def netif_extra_info_bytes : Nat := 1 + 1 + 6

/-- Bytes of `struct netif_tx_request`: `grant_ref_t gref; uint16_t offset;
uint16_t flags; uint16_t id; uint16_t size;`. -/
def netif_tx_request_bytes : Nat := 4 + 2 + 2 + 2 + 2

/-- Bytes of `struct netif_rx_response`: `uint16_t id; uint16_t offset;
uint16_t flags; int16_t status;`. -/
def netif_rx_response_bytes : Nat := 2 + 2 + 2 + 2

/-! ## Claim theorems: constants and layout -/

/-- C6: the response status codes are exactly `DROPPED = -2`, `ERROR = -1`,
`OKAY = 0` and `NULL = 1`, and the four codes are pairwise distinct. -/
theorem rsp_status_codes :
    XEN_NETIF_RSP_DROPPED = -2 ∧ XEN_NETIF_RSP_ERROR = -1 ∧
    XEN_NETIF_RSP_OKAY = 0 ∧ XEN_NETIF_RSP_NULL = 1 ∧
    XEN_NETIF_RSP_DROPPED ≠ XEN_NETIF_RSP_ERROR ∧
    XEN_NETIF_RSP_ERROR ≠ XEN_NETIF_RSP_OKAY ∧
    XEN_NETIF_RSP_OKAY ≠ XEN_NETIF_RSP_NULL := by decide

/-- C7: transmit flag bits sit at csum-blank = 0, data-validated = 1,
more-data = 2, extra-info-follows = 3; receive flag bits at
data-validated = 0, csum-blank = 1, more-data = 2, extra-info-follows = 3,
gso-prefix = 4; so the csum-blank and data-validated positions are swapped
between the two directions. -/
theorem flag_bit_positions :
    _XEN_NETTXF_csum_blank = 0 ∧ _XEN_NETTXF_data_validated = 1 ∧
    _XEN_NETTXF_more_data = 2 ∧ _XEN_NETTXF_extra_info = 3 ∧
    _XEN_NETRXF_data_validated = 0 ∧ _XEN_NETRXF_csum_blank = 1 ∧
    _XEN_NETRXF_more_data = 2 ∧ _XEN_NETRXF_extra_info = 3 ∧
    _XEN_NETRXF_gso_prefix = 4 ∧
    _XEN_NETTXF_csum_blank = _XEN_NETRXF_data_validated ∧
    _XEN_NETTXF_data_validated = _XEN_NETRXF_csum_blank ∧
    XEN_NETTXF_csum_blank = 1 ∧ XEN_NETTXF_data_validated = 2 ∧
    XEN_NETTXF_more_data = 4 ∧ XEN_NETTXF_extra_info = 8 ∧
    XEN_NETRXF_data_validated = 1 ∧ XEN_NETRXF_csum_blank = 2 ∧
    XEN_NETRXF_more_data = 4 ∧ XEN_NETRXF_extra_info = 8 ∧
    XEN_NETRXF_gso_prefix = 16 := by decide

/-- C10: every variant of the extra-info union is exactly 6 bytes, so the
8-byte `netif_extra_info` structure is exactly the size of a
`netif_rx_response` slot and no larger than a `netif_tx_request` slot. -/
theorem extra_info_fits_slots :
    gso_variant_bytes = 6 ∧ mcast_variant_bytes = 6 ∧ pad_variant_bytes = 6 ∧
    netif_extra_info_bytes = 8 ∧
    netif_extra_info_bytes = netif_rx_response_bytes ∧
    netif_extra_info_bytes ≤ netif_tx_request_bytes := by decide

/-! ## Descriptor codec

Modelled from the spec: the Descriptor Codec component
(`encode_request` / `decode_response`) is not part of the header under
`src/`; only the slot formats it packs are.  It enforces the 16-bit field
bounds of `netif_tx_request` (`uint16_t offset`, `uint16_t size`, maximum
transmit size `XEN_NETIF_MAX_TX_SIZE`) and of `netif_rx_response`
(`uint16_t offset`) as hard boundary checks, signalling `OutOfRange` on any
out-of-bounds value instead of truncating it. -/

/-- Codec errors of the descriptor codec. -/
inductive CodecError
  | MalformedDescriptor
  | OutOfRange
deriving DecidableEq

/-- Modelled from the spec: encoding a transmit request into a ring slot;
the committed slot keeps the fields exactly, and any offset or size outside
the 16-bit range is rejected with `OutOfRange`. -/
def encode_tx_request (r : netif_tx_request) : Except CodecError netif_tx_request :=
  if r.offset ≤ 0xFFFF ∧ r.size ≤ XEN_NETIF_MAX_TX_SIZE then Except.ok r
  else Except.error CodecError.OutOfRange

/-- Modelled from the spec: encoding a receive response into a ring slot;
the committed slot keeps the fields exactly, and any offset outside the
16-bit range is rejected with `OutOfRange`. -/
def encode_rx_response (r : netif_rx_response) : Except CodecError netif_rx_response :=
  if r.offset ≤ 0xFFFF then Except.ok r
  else Except.error CodecError.OutOfRange

/-- C8: no encoded descriptor carries a length or offset outside
`[0, 65535]`; the codec preserves in-range fields exactly (no truncation)
and rejects any out-of-bounds offset or size with `OutOfRange`; the maximum
transmit size constant is `0xFFFF`. -/
theorem codec_bounds_16bit (t : netif_tx_request) (x : netif_rx_response) :
    (∀ s, encode_tx_request t = Except.ok s →
      s.offset ≤ 65535 ∧ s.size ≤ 65535 ∧ s = t) ∧
    (t.offset > 65535 ∨ t.size > 65535 →
      encode_tx_request t = Except.error CodecError.OutOfRange) ∧
    (∀ s, encode_rx_response x = Except.ok s → s.offset ≤ 65535 ∧ s = x) ∧
    (x.offset > 65535 →
      encode_rx_response x = Except.error CodecError.OutOfRange) ∧
    XEN_NETIF_MAX_TX_SIZE = 65535 := by
  unfold encode_tx_request encode_rx_response XEN_NETIF_MAX_TX_SIZE
  refine ⟨?_, ?_, ?_, ?_, rfl⟩
  · intro s hs
    split at hs
    · rename_i h
      cases hs
      exact ⟨h.1, h.2, rfl⟩
    · cases hs
  · intro h
    rw [if_neg]
    omega
  · intro s hs
    split at hs
    · rename_i h
      cases hs
      exact ⟨h, rfl⟩
    · cases hs
  · intro h
    rw [if_neg]
    omega

/-- Witness for C8 at concrete descriptors: an oversize transmit offset and
an oversize receive offset are both rejected with `OutOfRange`, and an
in-range transmit request is committed unchanged. -/
theorem codec_bounds_16bit_witness :
    encode_tx_request ⟨7, 70000, 0, 1, 10⟩ = Except.error CodecError.OutOfRange ∧
    encode_rx_response ⟨1, 70000, 0, 0⟩ = Except.error CodecError.OutOfRange ∧
    (encode_tx_request ⟨7, 3, 0, 1, 10⟩ = Except.ok ⟨7, 3, 0, 1, 10⟩ →
      (7 : Nat) ≤ 65535) :=
  ⟨(codec_bounds_16bit ⟨7, 70000, 0, 1, 10⟩ ⟨1, 70000, 0, 0⟩).2.1
      (Or.inl (by decide)),
   (codec_bounds_16bit ⟨7, 70000, 0, 1, 10⟩ ⟨1, 70000, 0, 0⟩).2.2.2.1
      (by decide),
   fun h => by decide⟩

/-! ## Capability negotiation surface

Modelled from the spec: the capability-resolution code is not part of the
header under `src/`; the header documents the xenstore feature keys and
their defaults in its comments: `feature-no-csum-offload` missing means
IPv4 TCP/UDP checksum offload is on; `feature-ipv6-csum-offload` missing
means IPv6 checksum offload is off; neither side is assumed capable of GSO
unless `feature-gso-tcpv4` / `feature-gso-tcpv6` is present. -/

/-- Resolved capability set for one session. -/
structure NetifCaps where
  csumOffloadV4 : Bool
  csumOffloadV6 : Bool
  gsoTcpv4 : Bool
  gsoTcpv6 : Bool
  splitEventChannels : Bool
  multicastControl : Bool
deriving DecidableEq

/-- Value of a boolean feature key in the property bag, with a default for
an absent key: a present key means the advertised value "1" (enabled) or
anything else (disabled). -/
def flagVal (bag : String → Option String) (key : String) (dflt : Bool) : Bool :=
  match bag key with
  | none => dflt
  | some v => v = "1"

/-- Modelled from the spec: capability resolution over the session property
bag (a string-keyed key/value store).  Defaults follow the feature comments
of netif.h: an absent `feature-no-csum-offload` leaves IPv4 checksum
offload on (the key, when present with value "1", turns it off); an absent
`feature-ipv6-csum-offload` leaves IPv6 checksum offload off; GSO and the
other optional features are unsupported unless advertised. -/
def resolveCaps (bag : String → Option String) : NetifCaps :=
  { csumOffloadV4 :=
      match bag "feature-no-csum-offload" with
      | none => true
      | some v => !(v = "1" : Bool)
    csumOffloadV6 := flagVal bag "feature-ipv6-csum-offload" false
    gsoTcpv4 := flagVal bag "feature-gso-tcpv4" false
    gsoTcpv6 := flagVal bag "feature-gso-tcpv6" false
    splitEventChannels := flagVal bag "feature-split-event-channels" false
    multicastControl := flagVal bag "feature-multicast-control" false }

/-- C9: with the relevant keys absent from the property bag, capability
resolution defaults IPv4 checksum offload to enabled, IPv6 checksum offload
to disabled, and both GSO variants to unsupported. -/
theorem caps_defaults (bag : String → Option String)
    (h1 : bag "feature-no-csum-offload" = none)
    (h2 : bag "feature-ipv6-csum-offload" = none)
    (h3 : bag "feature-gso-tcpv4" = none)
    (h4 : bag "feature-gso-tcpv6" = none) :
    (resolveCaps bag).csumOffloadV4 = true ∧
    (resolveCaps bag).csumOffloadV6 = false ∧
    (resolveCaps bag).gsoTcpv4 = false ∧
    (resolveCaps bag).gsoTcpv6 = false := by
  simp [resolveCaps, flagVal, h1, h2, h3, h4]

/-- Witness for C9 at the empty property bag. -/
theorem caps_defaults_witness :
    (resolveCaps (fun _ => none)).csumOffloadV4 = true ∧
    (resolveCaps (fun _ => none)).csumOffloadV6 = false ∧
    (resolveCaps (fun _ => none)).gsoTcpv4 = false ∧
    (resolveCaps (fun _ => none)).gsoTcpv6 = false :=
  caps_defaults (fun _ => none) rfl rfl rfl rfl

/-! ## Flow/notification controller

Modelled from the spec: the two-watermark notification check
(`should_notify`) lives in the generic ring library (`ring.h`), which is
not part of `src/`.  Per the written contract, the peer is signalled after
an index advance from `prior` to `upd` exactly when the peer's published
event watermark falls in the half-open interval `(prior, upd]` modulo the
ring capacity.  The executable form below is the classic unsigned-distance
comparison, taken modulo the capacity. -/

/-- Circular distance `a - b` modulo `cap` (indices reduced modulo the
capacity first). -/
def subMod (cap a b : Nat) : Nat := (a % cap + cap - b % cap) % cap

/-- Modelled from the spec: `should_notify(prior_index, new_index,
peer_event_index)` — notify exactly when the backward distance from the new
index to the event watermark is smaller than the backward distance from the
new index to the prior index, all modulo the ring capacity. -/
def should_notify (cap prior upd event : Nat) : Bool :=
  subMod cap upd event < subMod cap upd prior

/-- Reduction of `(A + cap - B) % cap` to an explicit case split, for
reduced indices `A B < cap`. -/
theorem addSubMod_eq (cap A B : Nat) (hA : A < cap) (hB : B < cap) :
    (A + cap - B) % cap = if B ≤ A then A - B else A + cap - B := by
  split
  · rename_i h
    have hx : A + cap - B = (A - B) + cap := by omega
    rw [hx, Nat.add_mod_right]
    exact Nat.mod_eq_of_lt (by omega)
  · exact Nat.mod_eq_of_lt (by omega)

/-- C3: `should_notify` returns true iff the peer event index lies in the
half-open interval `(prior, upd]` modulo the ring capacity — i.e. its
circular distance past `prior` is positive and no more than the distance
from `prior` to `upd` — and, with capacity 4, `should_notify 0 2 1` is true
while `should_notify 0 2 3` is false. -/
theorem should_notify_iff (cap prior upd event : Nat) (hcap : 0 < cap) :
    (should_notify cap prior upd event = true ↔
      0 < subMod cap event prior ∧
        subMod cap event prior ≤ subMod cap upd prior) ∧
    should_notify 4 0 2 1 = true ∧ should_notify 4 0 2 3 = false := by
  refine ⟨?_, by decide, by decide⟩
  have hP : prior % cap < cap := Nat.mod_lt _ hcap
  have hN : upd % cap < cap := Nat.mod_lt _ hcap
  have hE : event % cap < cap := Nat.mod_lt _ hcap
  unfold should_notify subMod
  rw [addSubMod_eq cap (upd % cap) (event % cap) hN hE,
      addSubMod_eq cap (upd % cap) (prior % cap) hN hP,
      addSubMod_eq cap (event % cap) (prior % cap) hE hP]
  simp only [decide_eq_true_eq]
  split_ifs <;> omega

/-- Witness for C3 at capacity 4, prior 0, new index 2, event index 1. -/
theorem should_notify_iff_witness :
    (should_notify 4 0 2 1 = true ↔
      0 < subMod 4 1 0 ∧ subMod 4 1 0 ≤ subMod 4 2 0) ∧
    should_notify 4 0 2 1 = true ∧ should_notify 4 0 2 3 = false :=
  should_notify_iff 4 0 2 1 (by decide)

/-! ## Packet framer and reassembler

Modelled from the spec: the Packet Framer component is not part of the
header under `src/`; the header fixes its wire format in the comment at
netif.h lines 85-94:

  Request 1: netif_tx_request  (any flags; `XEN_NETTXF_extra_info` set when
             extra descriptors follow)
  Request 2..: netif_extra_info, chained while `XEN_NETIF_EXTRA_MORE` is
             set on the previous one
  Request k..N: netif_tx_request with `XEN_NETTXF_more_data` on all but the
             last

so the extra-info chain follows the first data descriptor, which announces
it via the extra-info flag.  Descriptors are modelled logically: a data
descriptor carries the direction-independent flag set, the offset, the
signed status/size field, and the referenced page's bytes (payload movement
itself is out of scope; the model lets a descriptor carry the bytes of the
granted page it references). -/

/-- GSO metadata of a packet: `u.gso.size` (MSS), `u.gso.type`
(`XEN_NETIF_GSO_TYPE_*`) and `u.gso.features`. -/
structure GsoMeta where
  size : Nat
  gsoType : Nat
  features : Nat
deriving DecidableEq

/-- A multicast-control request carried as an extra-info fragment:
`XEN_NETIF_EXTRA_TYPE_MCAST_ADD` or `..._MCAST_DEL` with a 6-byte group
address. -/
inductive McastOp
  | add (addr : List Nat)
  | del (addr : List Nat)
deriving DecidableEq

/-- Offload metadata of a packet.  Per the wire format an extra-info chain
is emitted exactly when the packet carries GSO metadata; further
extra-info fragments (multicast control requests) ride on the same
chain. -/
inductive Offload
  | noOffload
  | gso (g : GsoMeta) (mcast : List McastOp)
deriving DecidableEq

/-- Per-packet offload metadata `M`: the packet-wide checksum flags plus
the optional GSO/multicast extra-info content. -/
structure Meta where
  csumBlank : Bool
  dataValidated : Bool
  offload : Offload
deriving DecidableEq

/-- Payload of one extra-info descriptor (`netif_extra_info.u`). -/
inductive ExtraPayload
  | gso (size : Nat) (gsoType : Nat) (features : Nat)
  | mcast (addr : List Nat)
deriving DecidableEq

/-- One extra-info descriptor: `type` (`XEN_NETIF_EXTRA_TYPE_*`), the
`XEN_NETIF_EXTRA_FLAG_MORE` bit, and the union payload. -/
structure ExtraDesc where
  ty : Nat
  more : Bool
  payload : ExtraPayload
deriving DecidableEq

/-- One data descriptor, carrying the flag bits of its direction
(`csum-blank`, `data-validated`, `more-data`, `extra-info-follows`,
`gso-prefix`), the in-page offset, the signed status (transmit: the chunk
size; receive: negative error code or received byte count) and the bytes of
the referenced page. -/
structure DataDesc where
  csumBlank : Bool
  dataValidated : Bool
  moreData : Bool
  extraFollows : Bool
  gsoPfx : Bool
  offset : Nat
  status : Int
  page : List Nat
deriving DecidableEq

/-- A ring descriptor of the framed packet: a data slot or an extra-info
slot overlaying it. -/
inductive Desc
  | data (d : DataDesc)
  | extra (e : ExtraDesc)
deriving DecidableEq

/-- True exactly on extra-info descriptors. -/
def isExtraDesc : Desc → Bool
  | Desc.data _ => false
  | Desc.extra _ => true

/-- Splits a list into consecutive chunks of at most `n` elements
(fuel-driven so that it computes by kernel reduction; the fuel is the list
length, which always suffices).  With `n = 0` the whole list is one chunk.
The empty payload yields one empty chunk: a packet always has at least one
data descriptor. -/
def chunksOfAux : Nat → Nat → List Nat → List (List Nat)
  | 0, _, l => [l]
  | fuel + 1, n, l =>
    if l.length ≤ n ∨ n = 0 then [l]
    else l.take n :: chunksOfAux fuel n (l.drop n)

/-- Splits a payload into page-sized chunks (`n` = usable bytes per page). -/
def chunksOf (n : Nat) (l : List Nat) : List (List Nat) :=
  chunksOfAux l.length n l

/-- The extra-info descriptor announcing GSO metadata
(`XEN_NETIF_EXTRA_TYPE_GSO`). -/
def gsoExtraOf (g : GsoMeta) : ExtraDesc :=
  ⟨XEN_NETIF_EXTRA_TYPE_GSO, false, ExtraPayload.gso g.size g.gsoType g.features⟩

/-- The extra-info descriptor of one multicast control request. -/
def extraOfMcast : McastOp → ExtraDesc
  | McastOp.add a => ⟨XEN_NETIF_EXTRA_TYPE_MCAST_ADD, false, ExtraPayload.mcast a⟩
  | McastOp.del a => ⟨XEN_NETIF_EXTRA_TYPE_MCAST_DEL, false, ExtraPayload.mcast a⟩

/-- Chains extra-info descriptors: `XEN_NETIF_EXTRA_FLAG_MORE` set on every
descriptor of the chain except the last, which clears it. -/
def chainExtras : ExtraDesc → List ExtraDesc → List ExtraDesc
  | e, [] => [{ e with more := false }]
  | e, e2 :: rest => { e with more := true } :: chainExtras e2 rest

/-- The extra-info chain of a packet: nothing without GSO metadata;
otherwise the GSO descriptor first, then the multicast control requests,
chained via the more-follows flag. -/
def extrasOf (m : Meta) : List ExtraDesc :=
  match m.offload with
  | Offload.noOffload => []
  | Offload.gso g mc => chainExtras (gsoExtraOf g) (mc.map extraOfMcast)

/-- Data descriptors for the chunks after the first: `more-data` set on all
but the last of the packet, checksum flags only on the first descriptor
(they apply packet-wide), no extra-info flag. -/
def tailDataDescs : List (List Nat) → List Desc
  | [] => []
  | [c] => [Desc.data ⟨false, false, false, false, false, 0, (c.length : Int), c⟩]
  | c :: c2 :: rest =>
    Desc.data ⟨false, false, true, false, false, 0, (c.length : Int), c⟩
      :: tailDataDescs (c2 :: rest)

/-- The descriptor sequence of one framed packet, following the wire-format
comment of netif.h: the first data descriptor (carrying the packet-wide
checksum flags, the extra-info flag when a chain follows, and more-data
when further data descriptors follow), then the extra-info chain, then the
remaining data descriptors. -/
def frameDescs (pg : Nat) (payload : List Nat) (m : Meta) : List Desc :=
  match chunksOf pg payload with
  | [] => []
  | c :: rest =>
    Desc.data ⟨m.csumBlank, m.dataValidated, !rest.isEmpty,
               !(extrasOf m).isEmpty, false, 0, (c.length : Int), c⟩
      :: ((extrasOf m).map Desc.extra ++ tailDataDescs rest)

/-- Total descriptor count of a framed packet: data chunks plus extra-info
descriptors. -/
def descCount (pg : Nat) (payload : List Nat) (m : Meta) : Nat :=
  (chunksOf pg payload).length + (extrasOf m).length

/-- Framing-time errors. -/
inductive FrameError
  | PacketTooFragmented
deriving DecidableEq

/-- Modelled from the spec: outbound framing.  Splits the payload into
page-sized chunks, emits the descriptor sequence of `frameDescs`, and fails
with `PacketTooFragmented` when the packet's total descriptor count exceeds
the negotiated per-packet slot maximum. -/
def frame (slotMax pg : Nat) (payload : List Nat) (m : Meta) :
    Except FrameError (List Desc) :=
  if descCount pg payload m ≤ slotMax then Except.ok (frameDescs pg payload m)
  else Except.error FrameError.PacketTooFragmented

/-- Reassembly-time errors: `ReceiveError` surfaces a negative response
status; `Malformed` a descriptor sequence violating the wire format;
`Incomplete` a chain whose remaining slots are not yet visible (reassembly
suspends). -/
inductive RxError
  | ReceiveError (code : Int)
  | Malformed
  | Incomplete
deriving DecidableEq

/-- Bytes contributed by one data descriptor: the received byte count
(`status`) starting at `offset` within the referenced page. -/
def takeBytes (d : DataDesc) : List Nat :=
  ((d.page.drop d.offset).take d.status.toNat)

/-- Consumes a chained sequence of extra-info descriptors (each continues
while its more-follows flag is set), returning the chain and the remaining
descriptors, or `none` when the chain runs past the visible descriptors or
into a data slot. -/
def parseExtras : List Desc → Option (List ExtraDesc × List Desc)
  | Desc.extra e :: rest =>
    if e.more then
      match parseExtras rest with
      | some (es, r) => some (e :: es, r)
      | none => none
    else some ([e], rest)
  | _ => none

/-- Recovers one multicast control request from an extra-info descriptor,
by its type discriminant. -/
def mcastOfExtra (e : ExtraDesc) : Option McastOp :=
  if e.ty = XEN_NETIF_EXTRA_TYPE_MCAST_ADD then
    match e.payload with
    | ExtraPayload.mcast a => some (McastOp.add a)
    | _ => none
  else if e.ty = XEN_NETIF_EXTRA_TYPE_MCAST_DEL then
    match e.payload with
    | ExtraPayload.mcast a => some (McastOp.del a)
    | _ => none
  else none

/-- Recovers the offload metadata accumulated from a consumed extra-info
chain: GSO parameters from the leading GSO descriptor, multicast control
requests from the rest of the chain. -/
def offloadOfExtras : List ExtraDesc → Offload
  | ⟨_, _, ExtraPayload.gso s t f⟩ :: rest =>
    Offload.gso ⟨s, t, f⟩ (rest.filterMap mcastOfExtra)
  | _ => Offload.noOffload

/-- Reads the data descriptors of a packet after the first one,
accumulating bytes, until a descriptor with more-data clear terminates the
packet; a negative status aborts the whole packet with `ReceiveError`, and
a chain running past the visible descriptors suspends as `Incomplete`. -/
def reassembleRest : List Desc → Except RxError (List Nat)
  | [] => Except.error RxError.Incomplete
  | Desc.extra _ :: _ => Except.error RxError.Malformed
  | Desc.data d :: rest =>
    if d.status < 0 then Except.error (RxError.ReceiveError d.status)
    else if d.moreData then
      match reassembleRest rest with
      | Except.ok bs => Except.ok (takeBytes d ++ bs)
      | Except.error e => Except.error e
    else Except.ok (takeBytes d)

/-- Reassembles one packet whose first data descriptor is `d0`: checks the
status, records the packet-wide checksum flags, consumes the extra-info
chain when announced, then accumulates the data descriptors until the
more-data flag clears.  A negative status anywhere discards the packet as a
unit — the error result carries no partial payload. -/
def reassembleCore (d0 : DataDesc) (rest : List Desc) :
    Except RxError (List Nat × Meta) :=
  if d0.status < 0 then Except.error (RxError.ReceiveError d0.status)
  else if d0.extraFollows then
    match parseExtras rest with
    | none => Except.error RxError.Malformed
    | some (es, rest2) =>
      if d0.moreData then
        match reassembleRest rest2 with
        | Except.ok bs =>
          Except.ok (takeBytes d0 ++ bs,
            ⟨d0.csumBlank, d0.dataValidated, offloadOfExtras es⟩)
        | Except.error e => Except.error e
      else
        Except.ok (takeBytes d0,
          ⟨d0.csumBlank, d0.dataValidated, offloadOfExtras es⟩)
  else
    if d0.moreData then
      match reassembleRest rest with
      | Except.ok bs =>
        Except.ok (takeBytes d0 ++ bs,
          ⟨d0.csumBlank, d0.dataValidated, Offload.noOffload⟩)
      | Except.error e => Except.error e
    else
      Except.ok (takeBytes d0,
        ⟨d0.csumBlank, d0.dataValidated, Offload.noOffload⟩)

/-- Merges the GSO parameters announced by a GSO-prefix descriptor (its
status/size fields describe the upcoming packet's GSO parameters) into the
packet's offload metadata when the packet carried none of its own. -/
def gsoPrefixMerge (st : Int) : Offload → Offload
  | Offload.noOffload => Offload.gso ⟨st.toNat, XEN_NETIF_GSO_TYPE_NONE, 0⟩ []
  | o => o

/-- Modelled from the spec: inbound reassembly.  A leading descriptor with
the gso-prefix flag is metadata-only (it contributes no payload bytes);
then one packet is reassembled from the data descriptors and the optional
extra-info chain. -/
def reassemble : List Desc → Except RxError (List Nat × Meta)
  | [] => Except.error RxError.Incomplete
  | Desc.extra _ :: _ => Except.error RxError.Malformed
  | Desc.data d0 :: rest =>
    if d0.gsoPfx then
      match rest with
      | Desc.data d1 :: rest2 =>
        match reassembleCore d1 rest2 with
        | Except.ok (bs, m) =>
          Except.ok (bs, { m with offload := gsoPrefixMerge d0.status m.offload })
        | Except.error e => Except.error e
      | _ => Except.error RxError.Incomplete
    else reassembleCore d0 rest

/-! ## Framer/reassembler lemmas -/

/-- Chunking never yields an empty chunk list. -/
theorem chunksOfAux_ne_nil (fuel n : Nat) (l : List Nat) :
    chunksOfAux fuel n l ≠ [] := by
  cases fuel with
  | zero => simp [chunksOfAux]
  | succ f =>
    unfold chunksOfAux
    split <;> simp

/-- Chunking never yields an empty chunk list. -/
theorem chunksOf_ne_nil (n : Nat) (l : List Nat) : chunksOf n l ≠ [] :=
  chunksOfAux_ne_nil l.length n l

/-- Concatenating the chunks gives back the original list. -/
theorem chunksOfAux_join (fuel n : Nat) (l : List Nat) :
    (chunksOfAux fuel n l).flatten = l := by
  induction fuel generalizing l with
  | zero => simp [chunksOfAux]
  | succ f ih =>
    unfold chunksOfAux
    split
    · simp
    · simp [ih (l.drop n), List.take_append_drop]

/-- Concatenating the chunks gives back the original payload. -/
theorem chunksOf_join (n : Nat) (l : List Nat) : (chunksOf n l).flatten = l :=
  chunksOfAux_join l.length n l

/-- The bytes of a framed data descriptor are exactly its chunk. -/
theorem takeBytes_mk (cb dv md ef gp : Bool) (c : List Nat) :
    takeBytes ⟨cb, dv, md, ef, gp, 0, (c.length : Int), c⟩ = c := by
  simp [takeBytes]

/-- Reassembling the tail data descriptors of a nonempty chunk list
accumulates exactly the concatenation of the chunks. -/
theorem reassembleRest_tailDataDescs (c : List Nat) (cs : List (List Nat)) :
    reassembleRest (tailDataDescs (c :: cs)) = Except.ok (c :: cs).flatten := by
  induction cs generalizing c with
  | nil =>
    simp [tailDataDescs, reassembleRest, takeBytes_mk]
  | cons c2 r ih =>
    simp [tailDataDescs, reassembleRest, takeBytes_mk, ih c2]

/-- Consuming a framed extra-info chain returns exactly the chain and
leaves the trailing descriptors untouched. -/
theorem parseExtras_chain (e : ExtraDesc) (l : List ExtraDesc) (k : List Desc) :
    parseExtras ((chainExtras e l).map Desc.extra ++ k) =
      some (chainExtras e l, k) := by
  induction l generalizing e with
  | nil => simp [chainExtras, parseExtras]
  | cons e2 r ih => simp [chainExtras, parseExtras, ih e2]

/-- Recovering a multicast request ignores the more-follows flag. -/
theorem mcastOfExtra_more (e : ExtraDesc) (b : Bool) :
    mcastOfExtra { e with more := b } = mcastOfExtra e := rfl

/-- Recovering the multicast request of its own extra descriptor gives the
request back. -/
theorem mcastOfExtra_extraOfMcast (op : McastOp) :
    mcastOfExtra (extraOfMcast op) = some op := by
  cases op <;>
    simp [extraOfMcast, mcastOfExtra,
      XEN_NETIF_EXTRA_TYPE_MCAST_ADD, XEN_NETIF_EXTRA_TYPE_MCAST_DEL]

/-- The multicast requests of a chained multicast extra-info sequence are
the original requests, whatever the more-follows flags were set to. -/
theorem mcastOfExtra_chain (op : McastOp) (ops : List McastOp) :
    (chainExtras (extraOfMcast op) (ops.map extraOfMcast)).filterMap mcastOfExtra
      = op :: ops := by
  induction ops generalizing op with
  | nil =>
    simp [chainExtras, List.filterMap_cons, mcastOfExtra_more,
      mcastOfExtra_extraOfMcast]
  | cons op2 rest ih =>
    simp only [List.map_cons, chainExtras, List.filterMap_cons,
      mcastOfExtra_more, mcastOfExtra_extraOfMcast, ih op2]

/-- The offload metadata recovered from a framed GSO extra-info chain is
the original metadata. -/
theorem offloadOfExtras_chain (g : GsoMeta) (mc : List McastOp) :
    offloadOfExtras (chainExtras (gsoExtraOf g) (mc.map extraOfMcast)) =
      Offload.gso g mc := by
  obtain ⟨s, t, f⟩ := g
  cases mc with
  | nil => simp [chainExtras, gsoExtraOf, offloadOfExtras]
  | cons op ops =>
    simp [chainExtras, gsoExtraOf, offloadOfExtras, mcastOfExtra_chain op ops]

/-- A framed extra-info chain is never empty. -/
theorem chainExtras_ne_nil (e : ExtraDesc) (l : List ExtraDesc) :
    chainExtras e l ≠ [] := by
  cases l <;> simp [chainExtras]

/-- Core round-trip: reassembling the descriptor sequence produced by
framing yields exactly the original payload and metadata. -/
theorem reassemble_frameDescs_eq (pg : Nat) (F : List Nat) (M : Meta) :
    reassemble (frameDescs pg F M) = Except.ok (F, M) := by
  obtain ⟨cb, dv, off⟩ := M
  rcases hc : chunksOf pg F with _ | ⟨c, rest⟩
  · exact absurd hc (chunksOf_ne_nil pg F)
  have hF : c ++ rest.flatten = F := by
    have := chunksOf_join pg F
    rw [hc] at this
    simpa using this
  have hnn : ¬ ((c.length : Int) < 0) := by
    simp
  cases off with
  | noOffload =>
    cases rest with
    | nil =>
      simp only [frameDescs, hc, extrasOf, List.isEmpty_nil, List.map_nil,
        tailDataDescs, List.nil_append, Bool.not_true]
      simp [reassemble, reassembleCore, hnn, takeBytes_mk]
      simpa using hF
    | cons c2 r =>
      simp only [frameDescs, hc, extrasOf, List.isEmpty_nil, List.map_nil,
        List.isEmpty_cons, tailDataDescs, List.nil_append, Bool.not_true,
        Bool.not_false]
      simp [reassemble, reassembleCore, hnn, takeBytes_mk,
        reassembleRest_tailDataDescs c2 r]
      simpa using hF
  | gso g mc =>
    have hex : extrasOf ⟨cb, dv, Offload.gso g mc⟩ =
        chainExtras (gsoExtraOf g) (mc.map extraOfMcast) := rfl
    have hne : (extrasOf ⟨cb, dv, Offload.gso g mc⟩).isEmpty = false := by
      rw [hex]
      simp [List.isEmpty_iff, chainExtras_ne_nil]
    have hp : ∀ k, parseExtras
        ((chainExtras (gsoExtraOf g) (mc.map extraOfMcast)).map Desc.extra ++ k)
        = some (chainExtras (gsoExtraOf g) (mc.map extraOfMcast), k) :=
      fun k => parseExtras_chain (gsoExtraOf g) (mc.map extraOfMcast) k
    have hp0 : parseExtras
        ((chainExtras (gsoExtraOf g) (mc.map extraOfMcast)).map Desc.extra)
        = some (chainExtras (gsoExtraOf g) (mc.map extraOfMcast), []) := by
      simpa using hp []
    cases rest with
    | nil =>
      simp only [frameDescs, hc, hne, tailDataDescs, List.append_nil,
        List.isEmpty_nil, Bool.not_true, Bool.not_false]
      simp [reassemble, reassembleCore, hnn, takeBytes_mk, hex, hp0,
        offloadOfExtras_chain]
      simpa using hF
    | cons c2 r =>
      simp only [frameDescs, hc, hne, List.isEmpty_cons, Bool.not_false]
      simp [reassemble, reassembleCore, hnn, takeBytes_mk, hex, hp,
        offloadOfExtras_chain, reassembleRest_tailDataDescs c2 r]
      simpa using hF

/-! ## Claim theorems: framer and reassembler -/

/-- C1: for every outbound frame and offload metadata whose framed
descriptor count is within the negotiated per-packet slot bound, framing
succeeds and reassembling the produced descriptor sequence yields exactly
the original frame and metadata. -/
theorem frame_reassemble_roundtrip (slotMax pg : Nat) (F : List Nat) (M : Meta)
    (h : descCount pg F M ≤ slotMax) :
    frame slotMax pg F M = Except.ok (frameDescs pg F M) ∧
    reassemble (frameDescs pg F M) = Except.ok (F, M) := by
  refine ⟨?_, reassemble_frameDescs_eq pg F M⟩
  unfold frame
  rw [if_pos h]

/-- Witness for C1: a 6-byte payload over 4-byte pages with GSO metadata
and one multicast control request round-trips under the default 18-slot
bound. -/
theorem frame_reassemble_roundtrip_witness :
    descCount 4 [1, 2, 3, 4, 5, 6]
      ⟨true, false, Offload.gso ⟨1400, 1, 0⟩ [McastOp.add [0, 1, 2, 3, 4, 5]]⟩
      ≤ 18 ∧
    (frame 18 4 [1, 2, 3, 4, 5, 6]
        ⟨true, false, Offload.gso ⟨1400, 1, 0⟩ [McastOp.add [0, 1, 2, 3, 4, 5]]⟩ =
      Except.ok (frameDescs 4 [1, 2, 3, 4, 5, 6]
        ⟨true, false, Offload.gso ⟨1400, 1, 0⟩ [McastOp.add [0, 1, 2, 3, 4, 5]]⟩) ∧
    reassemble (frameDescs 4 [1, 2, 3, 4, 5, 6]
        ⟨true, false, Offload.gso ⟨1400, 1, 0⟩ [McastOp.add [0, 1, 2, 3, 4, 5]]⟩) =
      Except.ok ([1, 2, 3, 4, 5, 6],
        ⟨true, false, Offload.gso ⟨1400, 1, 0⟩ [McastOp.add [0, 1, 2, 3, 4, 5]]⟩)) :=
  ⟨by decide, frame_reassemble_roundtrip 18 4 [1, 2, 3, 4, 5, 6]
    ⟨true, false, Offload.gso ⟨1400, 1, 0⟩ [McastOp.add [0, 1, 2, 3, 4, 5]]⟩
    (by decide)⟩

/-- Shape of a chained more-follows flag sequence: set on every descriptor
of the chain except the last, which clears it. -/
def moreChainOk : List ExtraDesc → Bool
  | [] => true
  | [e] => !e.more
  | e :: e2 :: rest => e.more && moreChainOk (e2 :: rest)

/-- Framed extra-info chains have the more-follows shape. -/
theorem moreChainOk_chainExtras (e : ExtraDesc) (l : List ExtraDesc) :
    moreChainOk (chainExtras e l) = true := by
  induction l generalizing e with
  | nil => simp [chainExtras, moreChainOk]
  | cons e2 r ih =>
    have h2 := ih e2
    rcases hch : chainExtras e2 r with _ | ⟨y, t⟩
    · exact absurd hch (chainExtras_ne_nil e2 r)
    · rw [hch] at h2
      simp [chainExtras, hch, moreChainOk, h2]

/-- The type discriminant at the head of a framed extra-info chain. -/
theorem chainExtras_head_ty (e : ExtraDesc) (l : List ExtraDesc) :
    (chainExtras e l).head?.map ExtraDesc.ty = some e.ty := by
  cases l <;> simp [chainExtras]

/-- The descriptors after the extra-info chain are all data descriptors. -/
theorem tailDataDescs_all_data (cs : List (List Nat)) :
    ∀ x ∈ tailDataDescs cs, isExtraDesc x = false := by
  induction cs with
  | nil => simp [tailDataDescs]
  | cons c r ih =>
    cases r with
    | nil => simp [tailDataDescs, isExtraDesc]
    | cons c2 t =>
      intro x hx
      simp only [tailDataDescs, List.mem_cons] at hx
      rcases hx with hx | hx
      · subst hx
        simp [isExtraDesc]
      · exact ih x hx

/-- C2 (amended): when framing a packet that carries GSO metadata, the
framer emits the first data descriptor with the extra-info-follows flag
set, immediately followed by the Extra-Info chain (type=GSO on the first
descriptor, chained via more-follows, cleared on the last), and the
remaining descriptors after the chain are all data descriptors — per the
netif.h wire-format comment the chain follows, not precedes, the first
data descriptor. -/
theorem frame_gso_chain (slotMax pg : Nat) (F : List Nat) (cb dv : Bool)
    (g : GsoMeta) (mc : List McastOp)
    (h : descCount pg F ⟨cb, dv, Offload.gso g mc⟩ ≤ slotMax) :
    ∃ d0 : DataDesc, ∃ tail : List Desc,
      frame slotMax pg F ⟨cb, dv, Offload.gso g mc⟩ =
        Except.ok (Desc.data d0 ::
          ((extrasOf ⟨cb, dv, Offload.gso g mc⟩).map Desc.extra ++ tail)) ∧
      d0.extraFollows = true ∧
      (∀ x ∈ tail, isExtraDesc x = false) ∧
      extrasOf ⟨cb, dv, Offload.gso g mc⟩ ≠ [] ∧
      (extrasOf ⟨cb, dv, Offload.gso g mc⟩).head?.map ExtraDesc.ty =
        some XEN_NETIF_EXTRA_TYPE_GSO ∧
      moreChainOk (extrasOf ⟨cb, dv, Offload.gso g mc⟩) = true := by
  have hex : extrasOf ⟨cb, dv, Offload.gso g mc⟩ =
      chainExtras (gsoExtraOf g) (mc.map extraOfMcast) := rfl
  have hne : extrasOf ⟨cb, dv, Offload.gso g mc⟩ ≠ [] := by
    rw [hex]
    exact chainExtras_ne_nil _ _
  have hnemp : (extrasOf ⟨cb, dv, Offload.gso g mc⟩).isEmpty = false := by
    simpa [List.isEmpty_iff] using hne
  rcases hc : chunksOf pg F with _ | ⟨c, rest⟩
  · exact absurd hc (chunksOf_ne_nil pg F)
  refine ⟨⟨cb, dv, !rest.isEmpty, true, false, 0, (c.length : Int), c⟩,
    tailDataDescs rest, ?_, rfl, tailDataDescs_all_data rest, hne, ?_, ?_⟩
  · unfold frame
    rw [if_pos h]
    simp [frameDescs, hc, hnemp]
  · rw [hex, chainExtras_head_ty]
    rfl
  · rw [hex]
    exact moreChainOk_chainExtras _ _

/-- Witness for C2 (amended) at a concrete GSO packet with one multicast
request. -/
theorem frame_gso_chain_witness :
    descCount 4 [1, 2, 3, 4, 5] ⟨true, false, Offload.gso ⟨1000, 1, 0⟩
      [McastOp.add [0, 0, 0, 0, 0, 1]]⟩ ≤ 18 ∧
    (∃ d0 : DataDesc, ∃ tail : List Desc,
      frame 18 4 [1, 2, 3, 4, 5] ⟨true, false, Offload.gso ⟨1000, 1, 0⟩
          [McastOp.add [0, 0, 0, 0, 0, 1]]⟩ =
        Except.ok (Desc.data d0 ::
          ((extrasOf ⟨true, false, Offload.gso ⟨1000, 1, 0⟩
            [McastOp.add [0, 0, 0, 0, 0, 1]]⟩).map Desc.extra ++ tail)) ∧
      d0.extraFollows = true ∧
      (∀ x ∈ tail, isExtraDesc x = false) ∧
      extrasOf ⟨true, false, Offload.gso ⟨1000, 1, 0⟩
        [McastOp.add [0, 0, 0, 0, 0, 1]]⟩ ≠ [] ∧
      (extrasOf ⟨true, false, Offload.gso ⟨1000, 1, 0⟩
        [McastOp.add [0, 0, 0, 0, 0, 1]]⟩).head?.map ExtraDesc.ty =
        some XEN_NETIF_EXTRA_TYPE_GSO ∧
      moreChainOk (extrasOf ⟨true, false, Offload.gso ⟨1000, 1, 0⟩
        [McastOp.add [0, 0, 0, 0, 0, 1]]⟩) = true) :=
  ⟨by decide, frame_gso_chain 18 4 [1, 2, 3, 4, 5] true false ⟨1000, 1, 0⟩
    [McastOp.add [0, 0, 0, 0, 0, 1]] (by decide)⟩

/-- The property C2 claims of the framed sequence requires the Extra-Info
chain to precede every data descriptor, i.e. the sequence must begin with
an extra-info descriptor. -/
def beginsWithExtra (l : List Desc) : Bool :=
  match l with
  | Desc.extra _ :: _ => true
  | _ => false

/-- Counterexample to C2 as stated: framing a concrete GSO packet emits the
first data descriptor before the Extra-Info chain, so the produced sequence
does not begin with an extra-info descriptor. -/
theorem frame_gso_extras_first_counterexample :
    frame 18 4 [1, 2, 3] ⟨false, false, Offload.gso ⟨1000, 1, 0⟩ []⟩ =
      Except.ok [Desc.data ⟨false, false, false, true, false, 0, 3, [1, 2, 3]⟩,
        Desc.extra ⟨XEN_NETIF_EXTRA_TYPE_GSO, false, ExtraPayload.gso 1000 1 0⟩] ∧
    beginsWithExtra
      [Desc.data ⟨false, false, false, true, false, 0, 3, [1, 2, 3]⟩,
       Desc.extra ⟨XEN_NETIF_EXTRA_TYPE_GSO, false, ExtraPayload.gso 1000 1 0⟩]
      = false := ⟨rfl, rfl⟩

/-- C4: a packet spanning exactly 18 data descriptors frames and
reassembles correctly under the unnegotiated minimum slot bound
`XEN_NETIF_NR_SLOTS_MIN = 18`, while a packet needing 19 descriptors fails
with `PacketTooFragmented`. -/
theorem slots_min_bound (pg : Nat) (F18 F19 : List Nat) (cb dv : Bool)
    (h18 : (chunksOf pg F18).length = 18)
    (h19 : (chunksOf pg F19).length = 19) :
    frame XEN_NETIF_NR_SLOTS_MIN pg F18 ⟨cb, dv, Offload.noOffload⟩ =
      Except.ok (frameDescs pg F18 ⟨cb, dv, Offload.noOffload⟩) ∧
    reassemble (frameDescs pg F18 ⟨cb, dv, Offload.noOffload⟩) =
      Except.ok (F18, ⟨cb, dv, Offload.noOffload⟩) ∧
    frame XEN_NETIF_NR_SLOTS_MIN pg F19 ⟨cb, dv, Offload.noOffload⟩ =
      Except.error FrameError.PacketTooFragmented := by
  have hd18 : descCount pg F18 ⟨cb, dv, Offload.noOffload⟩ = 18 := by
    simp [descCount, extrasOf, h18]
  have hd19 : descCount pg F19 ⟨cb, dv, Offload.noOffload⟩ = 19 := by
    simp [descCount, extrasOf, h19]
  refine ⟨?_, reassemble_frameDescs_eq pg F18 _, ?_⟩
  · unfold frame
    rw [if_pos]
    rw [hd18, XEN_NETIF_NR_SLOTS_MIN]
  · unfold frame
    rw [if_neg]
    rw [hd19, XEN_NETIF_NR_SLOTS_MIN]
    omega

/-- Witness for C4 with 1-byte pages: an 18-byte payload spans exactly 18
data descriptors and round-trips; a 19-byte payload is rejected. -/
theorem slots_min_bound_witness :
    (chunksOf 1 (List.replicate 18 7)).length = 18 ∧
    (chunksOf 1 (List.replicate 19 7)).length = 19 ∧
    (frame XEN_NETIF_NR_SLOTS_MIN 1 (List.replicate 18 7)
        ⟨false, false, Offload.noOffload⟩ =
      Except.ok (frameDescs 1 (List.replicate 18 7)
        ⟨false, false, Offload.noOffload⟩) ∧
    reassemble (frameDescs 1 (List.replicate 18 7)
        ⟨false, false, Offload.noOffload⟩) =
      Except.ok (List.replicate 18 7, ⟨false, false, Offload.noOffload⟩) ∧
    frame XEN_NETIF_NR_SLOTS_MIN 1 (List.replicate 19 7)
        ⟨false, false, Offload.noOffload⟩ =
      Except.error FrameError.PacketTooFragmented) :=
  ⟨by decide, by decide,
   slots_min_bound 1 (List.replicate 18 7) (List.replicate 19 7) false false
     (by decide) (by decide)⟩

/-- Mid-chain data descriptors (more-data set, nonnegative status) built
from (offset, page) pairs. -/
def dataRun (entries : List (Nat × List Nat)) : List Desc :=
  entries.map (fun p =>
    Desc.data ⟨false, false, true, false, false, p.1, ((p.2).length : Int), p.2⟩)

/-- A negative status anywhere in the remaining data descriptors of a
packet aborts reassembly with `ReceiveError`, whatever was accumulated
before and whatever descriptors follow. -/
theorem reassembleRest_dataRun_error (bad : DataDesc) (hb : bad.status < 0)
    (run : List (Nat × List Nat)) (rest : List Desc) :
    reassembleRest (dataRun run ++ Desc.data bad :: rest) =
      Except.error (RxError.ReceiveError bad.status) := by
  induction run with
  | nil => simp [dataRun, reassembleRest, hb]
  | cons p r ih =>
    have hnn : ¬ (((p.2).length : Int) < 0) := by simp
    simp only [dataRun, List.map_cons] at ih ⊢
    simp [reassembleRest, hnn, ih]

/-- C5: a negative status at any position of a packet's descriptor chain —
at the first descriptor or after any run of accumulated data descriptors —
terminates reassembly with `ReceiveError(code)` carrying no payload: all
previously accumulated bytes are discarded and no partial packet is
delivered. -/
theorem rx_negative_status_discards (bad : DataDesc) (hb : bad.status < 0)
    (hbp : bad.gsoPfx = false) (front : List (Nat × List Nat))
    (cb dv : Bool) (off0 : Nat) (c0 : List Nat) (rest : List Desc) :
    reassemble (Desc.data bad :: rest) =
      Except.error (RxError.ReceiveError bad.status) ∧
    reassemble (Desc.data ⟨cb, dv, true, false, false, off0, (c0.length : Int), c0⟩
        :: (dataRun front ++ Desc.data bad :: rest)) =
      Except.error (RxError.ReceiveError bad.status) := by
  constructor
  · simp [reassemble, hbp, reassembleCore, hb]
  · simp [reassemble, reassembleCore,
      reassembleRest_dataRun_error bad hb front rest]

/-- Witness for C5: a chain of two good data descriptors followed by a
status −1 descriptor reassembles to `ReceiveError (-1)`. -/
theorem rx_negative_status_discards_witness :
    reassemble (Desc.data ⟨false, false, false, false, false, 0, -1, []⟩ :: []) =
      Except.error (RxError.ReceiveError (-1)) ∧
    reassemble (Desc.data ⟨false, false, true, false, false, 0,
        (([9, 9] : List Nat).length : Int), [9, 9]⟩
        :: (dataRun [(0, [5])] ++
          Desc.data ⟨false, false, false, false, false, 0, -1, []⟩ :: [])) =
      Except.error (RxError.ReceiveError (-1)) :=
  rx_negative_status_discards ⟨false, false, false, false, false, 0, -1, []⟩
    (by decide) (by decide) [(0, [5])] false false 0 [9, 9] []

end Netif
